import Mathlib

/-!
Verification of the Triplets training repository (Pamain.py, src/utils.py,
src/models/EndoForm.py) against its natural-language specification.

The development shallowly embeds the parts of the code the claims talk
about: checkpoint resume and pretrained-weight loading (src/utils.py),
tokenizer vocabulary extension (src/utils.py), the training loop's
best-score tracking, loss composition, checkpoint metadata records and
process termination (Pamain.py), and the tensor-shape semantics plus the
triplet attention classifier of the EndoForm model (src/models/EndoForm.py).

Floating-point tensors are abstracted by rationals; tensor shapes by
explicit shape records; Python exceptions by `Except`; in-place mutation
by explicit state passing.
-/

/-- Scores (average-precision values, loss values) are floats in the code;
they are abstracted by rationals here. -/
abbrev Score := ℚ

/-- A metrics dictionary such as the one returned by `PA_val`
(keys like "Val/IVT" mapping to float scores), abstracted as an
association list. -/
abbrev Metrics := List (String × Score)

/-- A PyTorch state dict: parameter names mapped to (abstracted) tensor
values.  A model is identified with its parameter collection, so
`model.load_state_dict sd` replaces the collection by `sd`. -/
abbrev StateDict := List (String × Score)

abbrev Model := StateDict

abbrev OptState := List (String × Score)

abbrev SchedState := List (String × Score)

/-- The record stored in `epoch.pth.tar` by the training loop and read back
by `resume_train_state` (src/utils.py lines 30-35). -/
structure EpochCkpt where
  epoch : Nat
  best_score : Score
  best_metrics : Metrics
  train_step : Nat
  val_step : Nat
deriving DecidableEq

/-- `load_pretrain_model` (src/utils.py lines 54-63).  The fallible part of
its `try` block — `load_model_dict` reading the file and
`model.load_state_dict` applying it — is modelled by the `loadRes`
argument.  On success the model carries the loaded state dict; on an
exception the function logs the error plus a failure message via
`accelerator.print` and returns the model unchanged.  The second component
models the `accelerator.print` output. -/
def load_pretrain_model (loadRes : Except String StateDict) (model : Model) :
    Model × List String :=
  match loadRes with
  | Except.ok sd => (sd, ["Successfully loaded the training model!"])
  | Except.error e => (model, [e, "Failed to load the training model!"])

/-- Result record of `resume_train_state` (src/utils.py lines 28-51); the
Python function returns these eight values as a tuple, plus the
`accelerator.print` log modelled here explicitly. -/
structure ResumeResult where
  model : Model
  optimizers : OptState
  schedulers : SchedState
  starting_epoch : Nat
  train_step : Nat
  val_step : Nat
  best_score : Score
  best_metrics : Metrics
  log : List String
deriving DecidableEq

/-- `resume_train_state` (src/utils.py lines 28-51), for the non-list
optimizer/scheduler as passed by Pamain.py.  The fallible steps of the
`try` block are modelled by `Except` arguments:
`epochLoad` for `torch.load(base_path + "/epoch.pth.tar")` together with
the five key extractions, `optLoad`/`schedLoad` for
`optimizers.load_state_dict(torch.load(...))` and the scheduler analogue.
`load_pretrain_model` catches its own exceptions (it never raises into
this function's `except` branch), so its outcome is the `modelLoad`
argument threaded through the model value.  An exception from any other
step lands in the `except` branch, which prints the error and
"Failed to load training state!" and returns the current model,
optimizers and schedulers with epoch 0, steps 0, best score 0 and empty
best metrics. -/
def resume_train_state (model : Model) (optimizers : OptState)
    (schedulers : SchedState) (epochLoad : Except String EpochCkpt)
    (modelLoad : Except String StateDict) (optLoad : Except String OptState)
    (schedLoad : Except String SchedState) : ResumeResult :=
  match epochLoad with
  | Except.error e =>
      { model := model, optimizers := optimizers, schedulers := schedulers,
        starting_epoch := 0, train_step := 0, val_step := 0, best_score := 0,
        best_metrics := [], log := [e, "Failed to load training state!"] }
  | Except.ok ck =>
      let loaded := load_pretrain_model modelLoad model
      match optLoad with
      | Except.error e =>
          { model := loaded.1, optimizers := optimizers,
            schedulers := schedulers, starting_epoch := 0, train_step := 0,
            val_step := 0, best_score := 0, best_metrics := [],
            log := loaded.2 ++ [e, "Failed to load training state!"] }
      | Except.ok opt1 =>
          match schedLoad with
          | Except.error e =>
              { model := loaded.1, optimizers := opt1,
                schedulers := schedulers, starting_epoch := 0,
                train_step := 0, val_step := 0, best_score := 0,
                best_metrics := [],
                log := loaded.2 ++ [e, "Failed to load training state!"] }
          | Except.ok sch1 =>
              { model := loaded.1, optimizers := opt1, schedulers := sch1,
                starting_epoch := ck.epoch + 1, train_step := ck.train_step,
                val_step := ck.val_step, best_score := ck.best_score,
                best_metrics := ck.best_metrics,
                log := loaded.2 ++ ["Loading training state successfully!"] }

/-- A Hugging Face tokenizer abstracted to the data
`add_tokens_tokenizer` uses: its vocabulary, as an ordered list of
words. -/
structure Tokenizer where
  vocab : List String
deriving DecidableEq

/-- The token-adding loop of Hugging Face `tokenizer.add_tokens`:
each token of the list that is not already in the vocabulary is appended
to it, and the number of tokens actually added is counted. -/
def add_tokens_go (vocab : List String) (count : Nat) :
    List String → List String × Nat
  | [] => (vocab, count)
  | w :: ws =>
      if w ∈ vocab then add_tokens_go vocab count ws
      else add_tokens_go (vocab ++ [w]) (count + 1) ws

/-- Hugging Face `tokenizer.add_tokens(new_tokens)`: returns the updated
tokenizer and the number of added tokens (the code prints that number). -/
def Tokenizer.add_tokens (tok : Tokenizer) (new_tokens : List String) :
    Tokenizer × Nat :=
  let r := add_tokens_go tok.vocab 0 new_tokens
  (⟨r.1⟩, r.2)

/-- `add_tokens_tokenizer` (src/utils.py lines 275-285): words of
`all_list` already in `tokenizer.vocab` are skipped (the `pass` branch);
the others are collected into `add` and passed to `tokenizer.add_tokens`;
the tokenizer is returned. -/
def add_tokens_tokenizer (tokenizer : Tokenizer) (all_list : List String) :
    Tokenizer :=
  let add := all_list.filter (fun word => decide (word ∉ tokenizer.vocab))
  (tokenizer.add_tokens add).1

/-- A training batch handed out by the train loader, abstracted to an
opaque identifier. -/
abbrev Batch := Nat

/-- The observable effect of one run of `train_one_epoch`
(Pamain.py lines 32-74) on the training bookkeeping: the returned `step`
counter, the batches on which a forward/backward pass was run, the number
of `optimizer.step()` calls, and whether `scheduler.step(epoch)` ran. -/
structure EpochRunResult where
  step : Nat
  processed : List Batch
  optimizer_steps : Nat
  scheduler_stepped : Bool
deriving DecidableEq

/-- `train_one_epoch` (Pamain.py lines 32-74), control-flow view.  The
`for batch, (img, txt, (y1, y2, y3, y4)) in enumerate(train_loader)` body
runs the model, backpropagates the loss, steps the optimizer, logs, does
`step += 1` — and ends in an unconditional `break`, so only the first
batch of the loader is ever processed.  After the loop,
`scheduler.step(epoch)` runs and `step` is returned (the optional
`val_training` block only computes and logs metrics; it does not touch
`step`). -/
def train_one_epoch (train_loader : List Batch) (step : Nat) :
    EpochRunResult :=
  match train_loader with
  | [] =>
      { step := step, processed := [], optimizer_steps := 0,
        scheduler_stepped := true }
  | b :: _ =>
      { step := step + 1, processed := [b], optimizer_steps := 1,
        scheduler_stepped := true }

/-- The four tensors returned by the model's forward pass, in the return
order of `EndoForm.forward` (src/models/EndoForm.py line 774):
`return instrument_output, verb_output, target_output, triplet_output`. -/
structure ModelOutput (T : Type) where
  instrument : T
  verb : T
  target : T
  triplet : T
deriving DecidableEq

/-- The loss computation of `train_one_epoch` (Pamain.py lines 35-43),
with the loss criteria abstracted as functions `ce` (CrossEntropyLoss)
and `bce` (BCEWithLogitsLoss).  The Python line
`tool, target, verb, triplet = model(img, txt.squeeze())` binds the local
name `target` to the model's second output and `verb` to its third, and
the loss terms are built from those local names exactly as in the
source. -/
def train_one_epoch_loss {T L : Type} (ce bce : T → L → Score)
    (out : ModelOutput T) (y1 y2 y3 y4 : L) : Score :=
  let tool := out.instrument
  let target := out.verb
  let verb := out.target
  let triplet := out.triplet
  let tool_mask_loss := ce tool y1
  let target_mask_loss := ce verb y2
  let verb_mask_loss := ce target y3
  let loss_ivt := bce triplet y4
  tool_mask_loss + target_mask_loss + verb_mask_loss + loss_ivt

/-- The best-model bookkeeping of the `__main__` training loop
(Pamain.py lines 154-171): the tracked best score and metrics, plus the
epochs at which best-model files respectively per-epoch checkpoint files
were written. -/
structure LoopState where
  best_score : Score
  best_metrics : Metrics
  best_saves : List Nat
  ckpt_saves : List Nat
deriving DecidableEq

/-- The tail of one iteration of the training loop (Pamain.py lines
154-171): after validation produced `score` and `metrics` for `epoch`,
`if best_score.item() < score:` updates the best score and metrics and
writes the best-model files; then the per-epoch checkpoint is written
unconditionally. -/
def epoch_tail (st : LoopState) (epoch : Nat) (score : Score)
    (metrics : Metrics) : LoopState :=
  let st1 :=
    if st.best_score < score then
      { st with best_score := score, best_metrics := metrics,
                best_saves := st.best_saves ++ [epoch] }
    else st
  { st1 with ckpt_saves := st1.ckpt_saves ++ [epoch] }

/-- The training loop over a sequence of per-epoch validation outcomes
`(epoch, ivt score, metrics)`. -/
def training_loop (st : LoopState) (rounds : List (Nat × Score × Metrics)) :
    LoopState :=
  rounds.foldl (fun s r => epoch_tail s r.1 r.2.1 r.2.2) st

/-- A value stored in the `epoch.pth.tar` dictionary. -/
inductive SavedValue
  | nat (n : Nat)
  | score (q : Score)
  | metrics (m : Metrics)
deriving DecidableEq

/-- The dictionary written to `best/epoch.pth.tar` in the best-model
branch of the training loop (Pamain.py lines 161-162). -/
def best_epoch_pth_tar (epoch : Nat) (best_score : Score)
    (best_metrics : Metrics) (train_step val_step : Nat) :
    List (String × SavedValue) :=
  [("epoch", SavedValue.nat epoch),
   ("best_score", SavedValue.score best_score),
   ("best_metrics", SavedValue.metrics best_metrics),
   ("train_step", SavedValue.nat train_step),
   ("val_step", SavedValue.nat val_step)]

/-- The dictionary written to `checkpoint/epoch.pth.tar` in the
unconditional checkout step of the training loop (Pamain.py lines
169-171). -/
def checkpoint_epoch_pth_tar (epoch : Nat) (best_score : Score)
    (best_metrics : Metrics) (train_step val_step : Nat) :
    List (String × SavedValue) :=
  [("epoch", SavedValue.nat epoch),
   ("best_score", SavedValue.score best_score),
   ("best_metrics", SavedValue.metrics best_metrics),
   ("train_step", SavedValue.nat train_step),
   ("val_step", SavedValue.nat val_step)]

/-- How the `__main__` process of Pamain.py terminates. -/
inductive PyTermination
  | sysExit (code : Nat)
  | uncaughtNameError
deriving DecidableEq

/-- The tail of Pamain.py's `__main__` (lines 151-180) after model and
data preparation.  The `for epoch in range(start_num_epochs, num_epochs)`
loop runs only inside `if config.trainer.is_train == True:`, so the
Python name `epoch` is bound only when that loop executed at least one
iteration — modelled by `epoch_var`.  The validation-only branch
`if config.trainer.is_train != True:` calls
`val_one_epoch(config, model, val_loader, loss_functions, activation,
epoch, val_step)`, which needs the value of `epoch`; when it was never
bound, evaluating the argument raises `NameError`.  Both paths otherwise
fall through to `sys.exit(1)`. -/
def pamain_termination (is_train : Bool)
    (start_num_epochs num_epochs : Nat) : PyTermination :=
  let epoch_var : Option Nat :=
    if is_train ∧ start_num_epochs < num_epochs then some (num_epochs - 1)
    else none
  if is_train then PyTermination.sysExit 1
  else
    match epoch_var with
    | some _ => PyTermination.sysExit 1
    | none => PyTermination.uncaughtNameError

/-- The operating-system exit status of the Python process for a given
termination: `sys.exit(c)` exits with status `c`; an uncaught exception
makes the interpreter exit with status 1. -/
def process_exit_status : PyTermination → Nat
  | PyTermination.sysExit c => c
  | PyTermination.uncaughtNameError => 1

/-- Shape of a 4-dimensional tensor (batch, channels, height, width). -/
structure S4 where
  b : Nat
  c : Nat
  h : Nat
  w : Nat
deriving DecidableEq

/-- Shape of a 2-dimensional tensor (batch, features). -/
structure S2 where
  b : Nat
  n : Nat
deriving DecidableEq

/-- Shape semantics of `nn.Conv2d(inC, outC, k, s, p)` (dilation 1, as
everywhere in EndoForm.py): defined when the channel count matches and
the padded input is at least the kernel, producing the PyTorch output
size `(h + 2p - k) / s + 1` (floor division). -/
def conv2d_shape (inC outC k s p : Nat) (x : S4) : Option S4 :=
  if x.c = inC ∧ k ≤ x.h + 2 * p ∧ k ≤ x.w + 2 * p ∧ 0 < s ∧ 0 < k then
    some ⟨x.b, outC, (x.h + 2 * p - k) / s + 1, (x.w + 2 * p - k) / s + 1⟩
  else none

/-- Shape semantics of `nn.MaxPool2d(k, s)` (no padding). -/
def maxpool2d_shape (k s : Nat) (x : S4) : Option S4 :=
  if k ≤ x.h ∧ k ≤ x.w ∧ 0 < s ∧ 0 < k then
    some ⟨x.b, x.c, (x.h - k) / s + 1, (x.w - k) / s + 1⟩
  else none

/-- Shape semantics of `F.adaptive_avg_pool2d(x, (1, 1))`. -/
def adaptive_avg_pool2d_shape (x : S4) : Option S4 :=
  if 0 < x.h ∧ 0 < x.w then some ⟨x.b, x.c, 1, 1⟩ else none

/-- Shape of `nn.functional.interpolate(x, size)` (the model's
`Upsample` wrapper): spatial size replaced by the target size. -/
def upsample_shape (x : S4) (h w : Nat) : S4 := ⟨x.b, x.c, h, w⟩

/-- Shape of `torch.cat([x, y], dim=1)`. -/
def cat_dim1_shape (x y : S4) : Option S4 :=
  if x.b = y.b ∧ x.h = y.h ∧ x.w = y.w then
    some ⟨x.b, x.c + y.c, x.h, x.w⟩
  else none

/-- Shapes of `x.chunk(2, dim=1)`: the first chunk takes the rounded-up
half of the channels. -/
def chunk2_dim1_shape (x : S4) : S4 × S4 :=
  (⟨x.b, x.c - x.c / 2, x.h, x.w⟩, ⟨x.b, x.c / 2, x.h, x.w⟩)

/-- Shape of `x.view(x.size(0), -1)` on a 4-dimensional tensor. -/
def flatten_shape (x : S4) : S2 := ⟨x.b, x.c * x.h * x.w⟩

/-- Shape of `x.view(-1, cols)`: defined when the element count splits
into rows of `cols`. -/
def view_rows_shape (cols : Nat) (x : S2) : Option S2 :=
  if 0 < cols ∧ x.b * x.n % cols = 0 then some ⟨x.b * x.n / cols, cols⟩
  else none

/-- Shape semantics of `nn.Linear(inF, outF)` on a (batch, features)
tensor. -/
def linear_shape (inF outF : Nat) (x : S2) : Option S2 :=
  if x.n = inF then some ⟨x.b, outF⟩ else none

/-- Shape behaviour of `MLP` (EndoForm.py lines 384-395): a 1x1
convolution to `dim * mlp_ratio` channels, the activation, and a 1x1
convolution back to `dim` channels. -/
def mlp_conv_shape (dim mlp_ratio : Nat) (x : S4) : Option S4 := do
  let y ← conv2d_shape dim (dim * mlp_ratio) 1 1 0 x
  conv2d_shape (dim * mlp_ratio) dim 1 1 0 y

/-- Shape behaviour of `GobleAttention.forward` (EndoForm.py lines
448-483): the channel-adjusting 3x3 convolution (stride 1, padding 1),
GroupNorm and activation; then the elementwise sum
`base_norm(base_conv(x)) + add_norm(add_conv(x)) + x` whose three
operands must agree in shape (`base_conv` has kernel `k`, stride 1,
padding `(k-1)/2`; `add_conv` is 1x1); then the `MLP`, whose output is
summed with the kept `identity`. -/
def goble_attention_shape (inDim outDim k mlp_ratio : Nat) (x : S4) :
    Option S4 := do
  let x1 ← conv2d_shape inDim outDim 3 1 1 x
  let yb ← conv2d_shape outDim outDim k 1 ((k - 1) / 2) x1
  let ya ← conv2d_shape outDim outDim 1 1 0 x1
  if yb = x1 ∧ ya = x1 then
    let m ← mlp_conv_shape outDim mlp_ratio x1
    if m = x1 then some x1 else none
  else none

/-- Shape behaviour of `LocalAttention.forward` (EndoForm.py lines
508-524): BatchNorm, a 1x1 pointwise convolution, a 3x3 depthwise
convolution with padding 1, BatchNorm, and a 1x1 pointwise convolution to
`outDim` channels. -/
def local_attention_shape (inDim outDim : Nat) (x : S4) : Option S4 := do
  let a ← conv2d_shape inDim inDim 1 1 0 x
  let c ← conv2d_shape inDim inDim 3 1 1 a
  conv2d_shape inDim outDim 1 1 0 c

/-- Shape behaviour of `AttentionBlock.forward` (EndoForm.py lines
526-545): the input is chunked into two channel halves, fed through
`GobleAttention` and `LocalAttention` (both built with `in_dim // 2`
input channels), concatenated on the channel dimension, and downsampled
by `BasicConv2d(out_dim * 2, out_dim, 1, 1)`. -/
def attention_block_shape (inDim outDim k mlp_ratio : Nat) (x : S4) :
    Option S4 := do
  let p := chunk2_dim1_shape x
  let a ← goble_attention_shape (inDim / 2) outDim k mlp_ratio p.1
  let c ← local_attention_shape (inDim / 2) outDim p.2
  let d ← cat_dim1_shape a c
  conv2d_shape (outDim * 2) outDim 1 1 0 d

/-- Shape behaviour of one `OverlapPatchEmbed` stage of the backbone
together with its transformer blocks (EndoForm.py lines 14-54 and
316-347): the stage is the patch-embedding convolution; the following
`flatten(2).transpose(1, 2)`, LayerNorm, transformer `Block`s (which
return tensors of their input shape) and the
`reshape(B, H, W, -1).permute(0, 3, 1, 2)` round-trip back to exactly the
convolution's output shape. -/
def patch_embed_stage_shape (inC embedDim k s p : Nat) (x : S4) :
    Option S4 :=
  conv2d_shape inC embedDim k s p x

/-- Shape behaviour of the `pvt_v2_b2` backbone's `forward_features`
(EndoForm.py lines 316-358): four stages with patch embeddings
Conv2d(inChans, 64, 7, 4, 3), Conv2d(64, 128, 3, 2, 1),
Conv2d(128, 320, 3, 2, 1) and Conv2d(320, 512, 3, 2, 1), returning the
four per-stage feature maps. -/
def pvt_v2_b2_shape (inChans : Nat) (x : S4) :
    Option (S4 × S4 × S4 × S4) := do
  let c1 ← patch_embed_stage_shape inChans 64 7 4 3 x
  let c2 ← patch_embed_stage_shape 64 128 3 2 1 c1
  let c3 ← patch_embed_stage_shape 128 320 3 2 1 c2
  let c4 ← patch_embed_stage_shape 320 512 3 2 1 c3
  some (c1, c2, c3, c4)

/-- Shape behaviour of `VerbClassifier.forward` (EndoForm.py lines
604-619): global average pooling to (1, 1), flattening, and the linear
layer `nn.Linear(in_channels, verb_channels)`. -/
def verb_classifier_shape (in_channels verb_channels : Nat) (x : S4) :
    Option S2 := do
  let p ← adaptive_avg_pool2d_shape x
  linear_shape in_channels verb_channels (flatten_shape p)

/-- Shape behaviour of `CrossAttention.forward` (EndoForm.py lines
621-645): 1x1 query/key/value convolutions (query and key to
`feature_dim // 8` channels, value to `feature_dim`); the two batched
matrix products require the batch-like dimensions (batch, height) of the
permuted operands to agree and chain the widths; the result is permuted
back and must match `x1` for the residual `gamma * out + x1`. -/
def cross_attention_shape (feature_dim : Nat) (x1 x2 : S4) : Option S4 := do
  let q ← conv2d_shape feature_dim (feature_dim / 8) 1 1 0 x1
  let k ← conv2d_shape feature_dim (feature_dim / 8) 1 1 0 x2
  let v ← conv2d_shape feature_dim feature_dim 1 1 0 x2
  if q.b = k.b ∧ q.h = k.h ∧ q.b = v.b ∧ q.h = v.h ∧ k.w = v.w then
    let out : S4 := ⟨q.b, v.c, q.h, q.w⟩
    if out = x1 then some x1 else none
  else none

/-- Shape behaviour of the `shared_conv` stack of
`SiameseNetworkWithCrossAttention` (EndoForm.py lines 648-656):
Conv2d(input_channels, 64, 3, 2, 1), ReLU, MaxPool2d(2, 2),
Conv2d(64, 128, 3, 2, 1), ReLU, MaxPool2d(2, 2). -/
def shared_conv_shape (input_channels : Nat) (x : S4) : Option S4 := do
  let a ← conv2d_shape input_channels 64 3 2 1 x
  let p ← maxpool2d_shape 2 2 a
  let c ← conv2d_shape 64 128 3 2 1 p
  maxpool2d_shape 2 2 c

/-- Shape behaviour of `SiameseNetworkWithCrossAttention.forward`
(EndoForm.py lines 640-656): both inputs go through the shared
convolution stack, cross-attend to each other, are globally average
pooled, flattened by `view(-1, 128 * 1 * 1)`, and classified by
`fc1 : Linear(128, output_dim1)` and `fc2 : Linear(128, output_dim2)`. -/
def siamese_shape (input_channels output_dim1 output_dim2 : Nat)
    (img1 img2 : S4) : Option (S2 × S2) := do
  let f1 ← shared_conv_shape input_channels img1
  let f2 ← shared_conv_shape input_channels img2
  let a1 ← cross_attention_shape 128 f1 f2
  let a2 ← cross_attention_shape 128 f2 f1
  let p1 ← adaptive_avg_pool2d_shape a1
  let p2 ← adaptive_avg_pool2d_shape a2
  let r1 ← view_rows_shape 128 (flatten_shape p1)
  let r2 ← view_rows_shape 128 (flatten_shape p2)
  let o1 ← linear_shape 128 output_dim1 r1
  let o2 ← linear_shape 128 output_dim2 r2
  some (o1, o2)

/-- Shape behaviour of `AttentionClassifier.forward` (EndoForm.py lines
659-708).  With widths read off the inputs
(`i_num = instrument.size()[-1]` and so on), the query is
`instrument.repeat(1, 1, v_num).view(-1, i_num * v_num)`, the key
`target.repeat(1, 1, v_num).view(-1, t_num * v_num)`, the value
`verb.repeat(1, i_num, 1).view(-1, v_num * i_num)`; each is projected to
`key_dim` features, split into `num_heads` heads of
`head_dim = key_dim / num_heads` (the constructor asserts
`head_dim * num_heads == key_dim`), attended (sequence length 1), merged
back to `key_dim` features, and mapped by `mlp : Linear(key_dim,
num_class)`. -/
def attention_classifier_shape
    (query_dim key_dim value_dim num_heads num_class : Nat)
    (instrument target verb : S2) : Option S2 := do
  let iNum := instrument.n
  let tNum := target.n
  let vNum := verb.n
  let qr ← view_rows_shape (iNum * vNum) ⟨instrument.b, instrument.n * vNum⟩
  let kr ← view_rows_shape (tNum * vNum) ⟨target.b, target.n * vNum⟩
  let vr ← view_rows_shape (vNum * iNum) ⟨verb.b * iNum, verb.n⟩
  let q ← linear_shape query_dim key_dim qr
  let k ← linear_shape key_dim key_dim kr
  let v ← linear_shape value_dim key_dim vr
  if 0 < num_heads ∧ key_dim % num_heads = 0 ∧ q.b = k.b ∧ q.b = v.b then
    linear_shape key_dim num_class ⟨q.b, key_dim⟩
  else none

/-- Shape behaviour of `EndoForm.forward` (EndoForm.py lines 752-774)
with the constructor defaults (`in_channels=3`, `total_channels=100`,
`i_channels=6`, `t_channels=15`, `v_channels=10`, `num_heads=10`,
`dims=[64, 128, 320, 512]`, `out_dim=32`, `kernel_size=3`,
`mlp_ratio=4`), on a batched image of shape (B, 3, H, W).  The four
results are returned in the source order
(instrument_output, verb_output, target_output, triplet_output). -/
def endoform_shape (B H W : Nat) : Option (ModelOutput S2) := do
  let cs ← pvt_v2_b2_shape 3 ⟨B, 3, H, W⟩
  let c1 := cs.1
  let c2 := cs.2.1
  let c3 := cs.2.2.1
  let c4 := cs.2.2.2
  let b4 ← attention_block_shape 512 32 3 4 c4
  let b4u := upsample_shape b4 c3.h c3.w
  let b3 ← attention_block_shape 320 32 3 4 c3
  let b2 ← attention_block_shape 128 32 3 4 c2
  let catted ← cat_dim1_shape (upsample_shape b4u c2.h c2.w)
    (upsample_shape b3 c2.h c2.w)
  let fuse2a ← conv2d_shape (32 * 2) 32 1 1 0 catted
  let output ← conv2d_shape 32 10 1 1 0 fuse2a
  let verb_output ← verb_classifier_shape 10 10 output
  let l_feature ← conv2d_shape 64 32 3 1 1 c1
  let h0 ← conv2d_shape 32 32 1 1 0 b2
  let h_feature := upsample_shape h0 l_feature.h l_feature.w
  let siam ← siamese_shape 32 6 15 l_feature h_feature
  let instrument_output := siam.1
  let target_output := siam.2
  let triplet_output ← attention_classifier_shape (6 * 10) (15 * 10)
    (10 * 6) 10 100 instrument_output target_output verb_output
  some ⟨instrument_output, verb_output, target_output, triplet_output⟩

/-- A rational-valued vector of length `n`, abstracting one example's
float logit vector. -/
abbrev Vec (n : Nat) := Fin n → Score

/-- An `nn.Linear` layer with its weight matrix and bias. -/
structure LinearLayer (inF outF : Nat) where
  weight : Fin outF → Fin inF → Score
  bias : Fin outF → Score

/-- Applying a linear layer: `y = W x + b`. -/
def LinearLayer.apply {inF outF : Nat} (L : LinearLayer inF outF)
    (x : Vec inF) : Vec outF :=
  fun j => L.bias j + ∑ i, L.weight j i * x i

/-- `F.softmax` over the last dimension, with the exponential function
abstracted as `expf` (the float `exp` has no exact rational
counterpart). -/
def softmax (expf : Score → Score) {n : Nat} (v : Vec n) : Vec n :=
  fun i => expf (v i) / ∑ j, expf (v j)

/-- The learnable layers of `AttentionClassifier` (EndoForm.py lines
659-675) as instantiated by `EndoForm.__init__` (line 739):
`query_proj : Linear(query_dim = i_channels * v_channels = 60, key_dim)`,
`key_proj : Linear(key_dim = t_channels * v_channels = 150, key_dim)`,
`value_proj : Linear(value_dim = v_channels * i_channels = 60, key_dim)`
and `mlp : Linear(key_dim, num_class = total_channels = 100)`. -/
structure AttnClsParams where
  query_proj : LinearLayer 60 150
  key_proj : LinearLayer 150 150
  value_proj : LinearLayer 60 150
  mlp : LinearLayer 150 100

/-- The slice of a projected 150-vector belonging to one of the
`num_heads = 10` heads of dimension `head_dim = key_dim / num_heads = 15`
after `view(batch_size, -1, num_heads, head_dim).transpose(1, 2)`. -/
def head_slice (x : Vec 150) (hd : Fin 10) : Vec 15 :=
  fun d => x ⟨hd.1 * 15 + d.1, by omega⟩

/-- `AttentionClassifier.forward` (EndoForm.py lines 677-708) on one
example (batch size 1), following the source line by line:
`query = instrument.repeat(1, 1, v_num).view(-1, i_num * v_num)` tiles
the instrument logits ten times, `key` tiles the target logits ten
times, `value = verb.repeat(1, i_num, 1).view(-1, v_num * i_num)` tiles
the verb logits six times; the three projections produce `key_dim = 150`
features viewed as 10 heads of 15; per head the score is the 1x1 matrix
`q @ k.transpose(-2, -1) / math.sqrt(head_dim)` (the irrational
`sqrt(head_dim)` is abstracted as `sqrt_head_dim`), softmaxed over the
(singleton) last dimension; `out = attention @ value` is merged back to
150 features and mapped by `mlp` to the 100 triplet classes. -/
def attention_classifier_forward (expf : Score → Score)
    (sqrt_head_dim : Score) (P : AttnClsParams) (instrument : Vec 6)
    (target : Vec 15) (verb : Vec 10) : Vec 100 :=
  let query : Vec 60 := fun j => instrument ⟨j.1 % 6, by omega⟩
  let key : Vec 150 := fun j => target ⟨j.1 % 15, by omega⟩
  let value : Vec 60 := fun j => verb ⟨j.1 % 10, by omega⟩
  let q : Vec 150 := P.query_proj.apply query
  let k : Vec 150 := P.key_proj.apply key
  let v : Vec 150 := P.value_proj.apply value
  let scores : Fin 10 → Vec 1 := fun hd => fun _ =>
    (∑ d, head_slice q hd d * head_slice k hd d) / sqrt_head_dim
  let attention : Fin 10 → Vec 1 := fun hd => softmax expf (scores hd)
  let out : Vec 150 := fun j => attention ⟨j.1 / 15, by omega⟩ 0 * v j
  P.mlp.apply out

/-- Multi-head attention over sequences of length one, as the claim
describes the triplet classifier's combination step: per head, the score
`softmax(Q Kᵀ / sqrt(head_dim))` weighs the value slice; the heads are
concatenated back into one 150-vector. -/
def multi_head_attention_len1 (expf : Score → Score)
    (sqrt_head_dim : Score) (q k v : Vec 150) : Vec 150 :=
  fun j =>
    let hd : Fin 10 := ⟨j.1 / 15, by omega⟩
    let score : Vec 1 := fun _ =>
      (∑ d, head_slice q hd d * head_slice k hd d) / sqrt_head_dim
    softmax expf score 0 * v j

/-- Ten concatenated copies of an instrument logit vector
(`instrument.repeat(1, 1, v_num)` flattened). -/
def tiled_instrument (x : Vec 6) : Vec 60 := fun j => x ⟨j.1 % 6, by omega⟩

/-- Ten concatenated copies of a target logit vector
(`target.repeat(1, 1, v_num)` flattened). -/
def tiled_target (x : Vec 15) : Vec 150 := fun j => x ⟨j.1 % 15, by omega⟩

/-- Six concatenated copies of a verb logit vector
(`verb.repeat(1, i_num, 1)` flattened). -/
def tiled_verb (x : Vec 10) : Vec 60 := fun j => x ⟨j.1 % 10, by omega⟩

/-- The triplet classifier as worded by the claim: project the repeated
instrument vector as query, the repeated target vector as key and the
repeated verb vector as value, combine them by multi-head attention, and
map the result through the final linear layer to 100 triplet logits. -/
def attention_classifier_claimed (expf : Score → Score)
    (sqrt_head_dim : Score) (P : AttnClsParams) (instrument : Vec 6)
    (target : Vec 15) (verb : Vec 10) : Vec 100 :=
  P.mlp.apply (multi_head_attention_len1 expf sqrt_head_dim
    (P.query_proj.apply (tiled_instrument instrument))
    (P.key_proj.apply (tiled_target target))
    (P.value_proj.apply (tiled_verb verb)))

/-- Claim C6: `load_pretrain_model` returns the model unchanged when
loading raises, logging the failure, and returns the model carrying the
loaded state dict when loading succeeds. -/
theorem load_pretrain_model_spec :
    ∀ (model : Model) (e : String) (sd : StateDict),
      (load_pretrain_model (Except.error e) model).1 = model ∧
      "Failed to load the training model!" ∈
        (load_pretrain_model (Except.error e) model).2 ∧
      (load_pretrain_model (Except.ok sd) model).1 = sd := by
  intro model e sd
  refine ⟨rfl, ?_, rfl⟩
  simp [load_pretrain_model]

/-- Claim C1 counterexample: when reading `epoch.pth.tar` and the
optimizer/scheduler loads succeed but loading the model weights raises,
the exception is swallowed inside `load_pretrain_model` and
`resume_train_state` still returns the checkpoint's training state
(starting epoch 5, best score 1, step counters 7 and 3), not the fresh
state the claim requires for every failing loading step. -/
theorem resume_train_state_weight_failure_cex :
    let r := resume_train_state [] [] []
      (Except.ok { epoch := 4, best_score := 1, best_metrics := [("Val/IVT", 1)],
                   train_step := 7, val_step := 3 })
      (Except.error "weight file corrupt") (Except.ok [("lr", 1)])
      (Except.ok [("last_epoch", 4)])
    ¬ (r.starting_epoch = 0 ∧ r.train_step = 0 ∧ r.val_step = 0 ∧
       r.best_score = 0 ∧ r.best_metrics = []) := by
  intro r h
  have : r.starting_epoch = 5 := rfl
  omega

/-- Claim C1 (amended): when reading `epoch.pth.tar` or loading the
optimizer or scheduler state raises, the exception is caught, the failure
is logged, and `resume_train_state` returns a fresh training state —
starting epoch 0, train_step 0, val_step 0, best score 0, empty best
metrics; when the `epoch.pth.tar` read itself fails, the model,
optimizers and schedulers are returned exactly as passed in.  (A failure
while loading model weights is caught inside `load_pretrain_model` and
does not trigger this fallback.) -/
theorem resume_train_state_fallback (model : Model) (optimizers : OptState)
    (schedulers : SchedState) (epochLoad : Except String EpochCkpt)
    (modelLoad : Except String StateDict) (optLoad : Except String OptState)
    (schedLoad : Except String SchedState)
    (h : (∃ e, epochLoad = Except.error e) ∨
         (∃ e, optLoad = Except.error e) ∨
         (∃ e, schedLoad = Except.error e)) :
    let r := resume_train_state model optimizers schedulers epochLoad
      modelLoad optLoad schedLoad
    r.starting_epoch = 0 ∧ r.train_step = 0 ∧ r.val_step = 0 ∧
    r.best_score = 0 ∧ r.best_metrics = [] ∧
    "Failed to load training state!" ∈ r.log ∧
    (∀ e, epochLoad = Except.error e →
      r.model = model ∧ r.optimizers = optimizers ∧
      r.schedulers = schedulers) := by
  intro r
  unfold r
  rcases h with ⟨e, he⟩ | ⟨e, he⟩ | ⟨e, he⟩ <;>
    cases epochLoad <;> cases optLoad <;> cases schedLoad <;>
      simp_all [resume_train_state]

/-- Witness for the amended claim C1, at a concrete failing
`epoch.pth.tar` read. -/
theorem resume_train_state_fallback_witness :
    let r := resume_train_state [("w", 2)] [("lr", 1)] [("last_epoch", 9)]
      (Except.error "no such file") (Except.ok [("w", 3)])
      (Except.ok [("lr", 1)]) (Except.ok [("last_epoch", 9)])
    r.starting_epoch = 0 ∧ r.train_step = 0 ∧ r.val_step = 0 ∧
    r.best_score = 0 ∧ r.best_metrics = [] ∧
    "Failed to load training state!" ∈ r.log ∧
    (∀ e, (Except.error "no such file" : Except String EpochCkpt) =
        Except.error e →
      r.model = [("w", 2)] ∧ r.optimizers = [("lr", 1)] ∧
      r.schedulers = [("last_epoch", 9)]) :=
  resume_train_state_fallback [("w", 2)] [("lr", 1)] [("last_epoch", 9)]
    (Except.error "no such file") (Except.ok [("w", 3)])
    (Except.ok [("lr", 1)]) (Except.ok [("last_epoch", 9)])
    (Or.inl ⟨"no such file", rfl⟩)

/-- Membership in the vocabulary produced by the token-adding loop:
a word is in the result exactly when it is in the starting vocabulary or
in the token list. -/
theorem mem_add_tokens_go (ts : List String) :
    ∀ (vocab : List String) (count : Nat) (w : String),
      w ∈ (add_tokens_go vocab count ts).1 ↔ w ∈ vocab ∨ w ∈ ts := by
  induction ts with
  | nil => intro vocab count w; simp [add_tokens_go]
  | cons t ts ih =>
      intro vocab count w
      simp only [add_tokens_go]
      by_cases ht : t ∈ vocab
      · rw [if_pos ht, ih]
        constructor
        · rintro (h | h)
          · exact Or.inl h
          · exact Or.inr (List.mem_cons_of_mem t h)
        · rintro (h | h)
          · exact Or.inl h
          · rcases List.mem_cons.mp h with h | h
            · exact Or.inl (h ▸ ht)
            · exact Or.inr h
      · rw [if_neg ht, ih]
        simp only [List.mem_append, List.mem_singleton, List.mem_cons]
        tauto

/-- Claim C5: `add_tokens_tokenizer` extends the vocabulary by exactly
the words of the list that were not already present — afterwards a word
is in the vocabulary iff it was before or occurs in the list — and when
every word of the list is already present, the tokenizer is returned
unchanged. -/
theorem add_tokens_tokenizer_spec (tok : Tokenizer) (all_list : List String) :
    (∀ w, w ∈ (add_tokens_tokenizer tok all_list).vocab ↔
        w ∈ tok.vocab ∨ w ∈ all_list) ∧
    ((∀ w ∈ all_list, w ∈ tok.vocab) →
      add_tokens_tokenizer tok all_list = tok) := by
  constructor
  · intro w
    unfold add_tokens_tokenizer Tokenizer.add_tokens
    rw [mem_add_tokens_go]
    simp only [List.mem_filter, decide_eq_true_eq]
    constructor
    · rintro (h | ⟨h, _⟩)
      · exact Or.inl h
      · exact Or.inr h
    · rintro (h | h)
      · exact Or.inl h
      · by_cases hv : w ∈ tok.vocab
        · exact Or.inl hv
        · exact Or.inr ⟨h, by simpa using hv⟩
  · intro hall
    unfold add_tokens_tokenizer
    have : all_list.filter (fun word => decide (word ∉ tok.vocab)) = [] := by
      rw [List.filter_eq_nil_iff]
      intro w hw
      simpa using hall w hw
    rw [this]
    rfl

/-- Witness for claim C5 at a concrete tokenizer and word list: a fresh
word ends up in the vocabulary, and a list of already-known words leaves
the tokenizer unchanged. -/
theorem add_tokens_tokenizer_spec_witness :
    "grasper" ∈ (add_tokens_tokenizer ⟨["hook"]⟩ ["hook", "grasper"]).vocab ∧
    add_tokens_tokenizer ⟨["hook"]⟩ ["hook"] = ⟨["hook"]⟩ :=
  ⟨((add_tokens_tokenizer_spec ⟨["hook"]⟩ ["hook", "grasper"]).1
      "grasper").mpr (Or.inr (by decide)),
   (add_tokens_tokenizer_spec ⟨["hook"]⟩ ["hook"]).2 (by decide)⟩

/-- One loop-tail step never decreases the tracked best score. -/
theorem epoch_tail_best_score_mono (st : LoopState) (epoch : Nat)
    (score : Score) (metrics : Metrics) :
    st.best_score ≤ (epoch_tail st epoch score metrics).best_score := by
  unfold epoch_tail
  by_cases h : st.best_score < score
  · simp only [if_pos h]
    exact le_of_lt h
  · simp only [if_neg h]
    exact le_refl _

/-- The tracked best score never decreases across the training loop. -/
theorem training_loop_best_score_mono (rounds : List (Nat × Score × Metrics)) :
    ∀ st : LoopState, st.best_score ≤ (training_loop st rounds).best_score := by
  induction rounds with
  | nil => intro st; simp [training_loop]
  | cons r rs ih =>
      intro st
      have h1 := epoch_tail_best_score_mono st r.1 r.2.1 r.2.2
      have h2 := ih (epoch_tail st r.1 r.2.1 r.2.2)
      simp only [training_loop, List.foldl_cons] at h2 ⊢
      exact le_trans h1 h2

/-- Claim C3: after each epoch's validation the best score, best metrics
and best-model files are updated exactly when the epoch's IVT score
strictly exceeds the current best score — otherwise only the per-epoch
checkpoint is written and the best-score state is unchanged — and
consequently the tracked best score is monotonically non-decreasing
across the training loop. -/
theorem best_score_tracking :
    (∀ (st : LoopState) (epoch : Nat) (score : Score) (metrics : Metrics),
      (st.best_score < score →
        epoch_tail st epoch score metrics =
          { best_score := score, best_metrics := metrics,
            best_saves := st.best_saves ++ [epoch],
            ckpt_saves := st.ckpt_saves ++ [epoch] }) ∧
      (¬ st.best_score < score →
        epoch_tail st epoch score metrics =
          { st with ckpt_saves := st.ckpt_saves ++ [epoch] })) ∧
    (∀ (st : LoopState) (rounds : List (Nat × Score × Metrics)),
      st.best_score ≤ (training_loop st rounds).best_score) := by
  refine ⟨fun st epoch score metrics => ⟨fun h => ?_, fun h => ?_⟩,
    fun st rounds => training_loop_best_score_mono rounds st⟩
  · unfold epoch_tail
    simp only [if_pos h]
  · unfold epoch_tail
    simp only [if_neg h]

/-- Witness for claim C3: a strictly better score updates the best state
and writes the best-model files; an equal score changes nothing but the
per-epoch checkpoint; the loop never lowers the best score. -/
theorem best_score_tracking_witness :
    epoch_tail ⟨0, [], [], []⟩ 0 1 [("Val/IVT", 1)] =
      ⟨1, [("Val/IVT", 1)], [0], [0]⟩ ∧
    epoch_tail ⟨2, [], [], []⟩ 1 2 [("Val/IVT", 2)] = ⟨2, [], [], [1]⟩ ∧
    (⟨0, [], [], []⟩ : LoopState).best_score ≤
      (training_loop ⟨0, [], [], []⟩ [(0, 1, [])]).best_score :=
  ⟨(best_score_tracking.1 ⟨0, [], [], []⟩ 0 1 [("Val/IVT", 1)]).1
      (by norm_num),
   (best_score_tracking.1 ⟨2, [], [], []⟩ 1 2 [("Val/IVT", 2)]).2
      (by norm_num),
   best_score_tracking.2 ⟨0, [], [], []⟩ [(0, 1, [])]⟩

/-- Claim C7: both `epoch.pth.tar` writes record exactly the five fields
epoch, best_score, best_metrics, train_step and val_step, in the same
layout. -/
theorem epoch_pth_tar_fields (epoch : Nat) (best_score : Score)
    (best_metrics : Metrics) (train_step val_step : Nat) :
    (best_epoch_pth_tar epoch best_score best_metrics train_step
        val_step).map Prod.fst =
      ["epoch", "best_score", "best_metrics", "train_step", "val_step"] ∧
    (checkpoint_epoch_pth_tar epoch best_score best_metrics train_step
        val_step).map Prod.fst =
      ["epoch", "best_score", "best_metrics", "train_step", "val_step"] ∧
    checkpoint_epoch_pth_tar epoch best_score best_metrics train_step
        val_step =
      best_epoch_pth_tar epoch best_score best_metrics train_step val_step :=
  ⟨rfl, rfl, rfl⟩

/-- Claim C8: `train_one_epoch` processes only the first batch of a
non-empty loader — one forward/backward pass and one optimizer step per
epoch, whatever the loader's length — and returns the step counter
incremented by one. -/
theorem train_one_epoch_single_batch (train_loader : List Batch)
    (step : Nat) (h : train_loader ≠ []) :
    (train_one_epoch train_loader step).processed = train_loader.take 1 ∧
    (train_one_epoch train_loader step).optimizer_steps = 1 ∧
    (train_one_epoch train_loader step).step = step + 1 := by
  cases train_loader with
  | nil => exact absurd rfl h
  | cons b bs => exact ⟨rfl, rfl, rfl⟩

/-- Witness for claim C8, on a three-batch loader. -/
theorem train_one_epoch_single_batch_witness :
    (train_one_epoch [10, 20, 30] 5).processed = [10] ∧
    (train_one_epoch [10, 20, 30] 5).optimizer_steps = 1 ∧
    (train_one_epoch [10, 20, 30] 5).step = 6 :=
  train_one_epoch_single_batch [10, 20, 30] 5 (by decide)

/-- Claim C9: the total backpropagated loss is the sum of
CrossEntropyLoss of the first model output against y1, CrossEntropyLoss
of the third output against y2 (the term named `target_mask_loss`),
CrossEntropyLoss of the second output against y3 (the term named
`verb_mask_loss`), and BCEWithLogitsLoss of the fourth output against
y4 — relative to the model's (instrument, verb, target, triplet) return
order, the second and third outputs are paired with y3 and y2. -/
theorem train_loss_pairing {T L : Type} (ce bce : T → L → Score)
    (out : ModelOutput T) (y1 y2 y3 y4 : L) :
    train_one_epoch_loss ce bce out y1 y2 y3 y4 =
      ce out.instrument y1 + ce out.target y2 + ce out.verb y3 +
        bce out.triplet y4 := rfl

/-- Claim C10 counterexample: a validation-only run
(`config.trainer.is_train` false, here with epoch range 0..10) does not
terminate by calling `sys.exit(1)`: it raises `NameError` on the unbound
loop variable `epoch`. -/
theorem pamain_val_only_cex :
    pamain_termination false 0 10 = PyTermination.uncaughtNameError ∧
    pamain_termination false 0 10 ≠ PyTermination.sysExit 1 := by
  constructor
  · rfl
  · decide

/-- Claim C10 (amended): every training run terminates by calling
`sys.exit(1)`; a validation-only run never reaches `sys.exit` — it dies
with an uncaught `NameError` on the unbound variable `epoch` — but in
either case the process exit status is 1, even on success. -/
theorem pamain_exit_status (is_train : Bool)
    (start_num_epochs num_epochs : Nat) :
    pamain_termination true start_num_epochs num_epochs =
      PyTermination.sysExit 1 ∧
    pamain_termination false start_num_epochs num_epochs =
      PyTermination.uncaughtNameError ∧
    process_exit_status
      (pamain_termination is_train start_num_epochs num_epochs) = 1 := by
  refine ⟨by simp [pamain_termination], by simp [pamain_termination], ?_⟩
  cases is_train <;> simp [pamain_termination, process_exit_status]

/-- A successful `nn.Linear` application fixes the output width. -/
theorem linear_shape_width {inF outF : Nat} {x y : S2}
    (h : linear_shape inF outF x = some y) : y.n = outF := by
  unfold linear_shape at h
  split at h
  · cases h
    rfl
  · exact Option.noConfusion h

/-- A successful `VerbClassifier` application fixes the output width. -/
theorem verb_classifier_shape_width {i v : Nat} {x : S4} {y : S2}
    (h : verb_classifier_shape i v x = some y) : y.n = v := by
  unfold verb_classifier_shape at h
  simp only [Option.bind_eq_bind, Option.bind_eq_some] at h
  obtain ⟨p, hp, hl⟩ := h
  exact linear_shape_width hl

/-- A successful Siamese two-branch classification fixes both output
widths. -/
theorem siamese_shape_widths {c o1 o2 : Nat} {x y : S4} {r : S2 × S2}
    (h : siamese_shape c o1 o2 x y = some r) : r.1.n = o1 ∧ r.2.n = o2 := by
  unfold siamese_shape at h
  simp only [Option.bind_eq_bind, Option.bind_eq_some, Option.some.injEq] at h
  obtain ⟨f1, hf1, f2, hf2, a1, ha1, a2, ha2, p1, hp1, p2, hp2, r1, hr1, r2,
    hr2, o1v, ho1, o2v, ho2, hr⟩ := h
  subst hr
  exact ⟨linear_shape_width ho1, linear_shape_width ho2⟩

/-- A successful `AttentionClassifier` application fixes the output
width to the number of triplet classes. -/
theorem attention_classifier_shape_width {qd kd vd nh nc : Nat}
    {i t v : S2} {y : S2}
    (h : attention_classifier_shape qd kd vd nh nc i t v = some y) :
    y.n = nc := by
  unfold attention_classifier_shape at h
  simp only [Option.bind_eq_bind, Option.bind_eq_some] at h
  obtain ⟨qr, hqr, kr, hkr, vr, hvr, q, hq, k, hk, vv, hv, hrest⟩ := h
  split at hrest
  · exact linear_shape_width hrest
  · exact Option.noConfusion hrest

/-- Claim C2: whenever the `EndoForm` forward pass accepts an input image
shape, it returns exactly four prediction tensors in the order
(instrument, verb, target, triplet) with per-example logit widths 6, 10,
15 and 100 — the default `i_channels`, `v_channels`, `t_channels` and
`total_channels`. -/
theorem endoform_output_widths (B H W : Nat) (out : ModelOutput S2)
    (h : endoform_shape B H W = some out) :
    out.instrument.n = 6 ∧ out.verb.n = 10 ∧ out.target.n = 15 ∧
      out.triplet.n = 100 := by
  unfold endoform_shape at h
  simp only [Option.bind_eq_bind, Option.bind_eq_some, Option.some.injEq]
    at h
  obtain ⟨cs, hcs, b4, hb4, b3, hb3, b2, hb2, catted, hcatted, fuse2a, hfa,
    outp, houtp, vo, hvo, lf, hlf, h0v, hh0, siam, hsiam, trip, htrip,
    hout⟩ := h
  subst hout
  obtain ⟨h1, h2⟩ := siamese_shape_widths hsiam
  exact ⟨h1, verb_classifier_shape_width hvo, h2,
    attention_classifier_shape_width htrip⟩

/-- Witness for claim C2 at the source's own test input shape
(1, 3, 256, 448): the forward pass is accepted and yields widths
6, 10, 15, 100. -/
theorem endoform_output_widths_witness :
    endoform_shape 1 256 448 =
      some ⟨⟨1, 6⟩, ⟨1, 10⟩, ⟨1, 15⟩, ⟨1, 100⟩⟩ ∧
    ((⟨⟨1, 6⟩, ⟨1, 10⟩, ⟨1, 15⟩, ⟨1, 100⟩⟩ : ModelOutput S2).instrument.n
        = 6 ∧
      (⟨⟨1, 6⟩, ⟨1, 10⟩, ⟨1, 15⟩, ⟨1, 100⟩⟩ : ModelOutput S2).verb.n = 10 ∧
      (⟨⟨1, 6⟩, ⟨1, 10⟩, ⟨1, 15⟩, ⟨1, 100⟩⟩ : ModelOutput S2).target.n
        = 15 ∧
      (⟨⟨1, 6⟩, ⟨1, 10⟩, ⟨1, 15⟩, ⟨1, 100⟩⟩ : ModelOutput S2).triplet.n
        = 100) :=
  have h : endoform_shape 1 256 448 =
      some ⟨⟨1, 6⟩, ⟨1, 10⟩, ⟨1, 15⟩, ⟨1, 100⟩⟩ := by decide
  ⟨h, endoform_output_widths 1 256 448 _ h⟩

/-- Claim C4: on every per-example triple of logit vectors (instrument of
width 6, target of width 15, verb of width 10), the triplet classifier's
forward pass equals the claimed composition: multi-head attention with
the projected repeated instrument vector as query, the projected
repeated target vector as key and the projected repeated verb vector as
value — per head `softmax(Q Kᵀ / sqrt(head_dim))` applied to the value —
followed by the final linear layer to the 100 triplet classes. -/
theorem attention_classifier_matches_claim (expf : Score → Score)
    (sqrt_head_dim : Score) (P : AttnClsParams) (instrument : Vec 6)
    (target : Vec 15) (verb : Vec 10) :
    attention_classifier_forward expf sqrt_head_dim P instrument target
        verb =
      attention_classifier_claimed expf sqrt_head_dim P instrument target
        verb := rfl
